import Mathlib

/-
Verification of the GuineaGames genetics/valuation engine
(backend/genetics.py and backend/pricing.py).

Modelling conventions:
* Python strings are lists of characters (`Str`); string literals are
  written as explicit character lists.
* Python floats are modelled as exact rationals (ℚ); `int(x)` is `truncQ`
  (truncation toward zero) and Python's `round` is Mathlib's `round`
  (the two agree on every value used in the statements below).
* SQLAlchemy rows are Lean structures; relationship attributes
  (`pg.gene`, `pg.allele1`, ...) are embedded as structure fields, and the
  session is an explicit `Db` value.  A raised exception is `Except.error`
  carrying an `Err` tag; a call that raises creates no state because the
  updated `Db` is only produced on `Except.ok`.
* The unseeded random source is an explicit argument: a list of naturals
  for `random.choice` draws and one integer per `random.randint(-5, 5)`.
-/

/-- A Python string, as its list of characters. -/
abbrev Str := List Char

/-- Python `s.split(c)` for a one-character separator: the result is never
empty, and `"".split(c) = [""]`. -/
def splitOn (c : Char) : Str → List Str
  | [] => [[]]
  | x :: xs =>
    match splitOn c xs with
    | [] => [[]]
    | h :: t => if x = c then [] :: h :: t else (x :: h) :: t

/-- Python `c.join(parts)` for a one-character separator. -/
def joinSep (c : Char) : List Str → Str
  | [] => []
  | [s] => s
  | s :: t :: rest => s ++ c :: joinSep c (t :: rest)

/-- Python `sep.join(parts)` for a multi-character separator. -/
def joinWith (sep : Str) : List Str → Str
  | [] => []
  | [s] => s
  | s :: t :: rest => s ++ sep ++ joinWith sep (t :: rest)

/-- ASCII whitespace, as stripped by Python's `str.strip()`. -/
def isPySpace (c : Char) : Bool :=
  c = ' ' || c = '\t' || c = '\n' || c = '\r' || c = '\x0b' || c = '\x0c'

/-- Python `s.strip()` (ASCII whitespace). -/
def pyStrip (s : Str) : Str :=
  ((s.dropWhile isPySpace).reverse.dropWhile isPySpace).reverse

/-- Python `s.lower()` (ASCII letters suffice for the gene names used). -/
def lowerStr (s : Str) : Str := s.map Char.toLower

/-- `leadsWith n h` is true when `n` is an initial run of `h`. -/
def leadsWith : Str → Str → Bool
  | [], _ => true
  | _ :: _, [] => false
  | a :: as, b :: bs => a = b && leadsWith as bs

/-- Python `n in h` for strings: `n` occurs contiguously inside `h`. -/
def hasSub (n : Str) : Str → Bool
  | [] => decide (n = [])
  | c :: rest => leadsWith n (c :: rest) || hasSub n rest

/-- Python dict assignment `d[k] = v`: replace in place if the key exists
(keeping its position, as Python dicts do), otherwise append. -/
def upsert {κ ν : Type} [DecidableEq κ] (k : κ) (v : ν) (d : List (κ × ν)) :
    List (κ × ν) :=
  if d.any (fun e => decide (e.1 = k)) then
    d.map (fun e => if e.1 = k then (k, v) else e)
  else d ++ [(k, v)]

/-- Python `d.get(k, dflt)` on an association list with unique keys. -/
def dictGet {ν : Type} (d : List (Str × ν)) (k : Str) (dflt : ν) : ν :=
  match d.find? (fun e => decide (e.1 = k)) with
  | some e => e.2
  | none => dflt

/-- The keys of a Python dict built by repeated assignment, in first-insertion
order (used for `genotype_counts.keys()`). -/
def keysGo : List Str → List Str → List Str
  | [], acc => acc
  | a :: l, acc => keysGo l (if a ∈ acc then acc else acc ++ [a])

def keysInOrder (l : List Str) : List Str := keysGo l []

/-- Python `int(x)` on a float/rational: truncation toward zero. -/
def truncQ (q : ℚ) : ℤ := if q < 0 then ⌈q⌉ else ⌊q⌋

/-- Is an `Except` value a normal return? -/
def exOk {ε α : Type} : Except ε α → Bool
  | .ok _ => true
  | .error _ => false

/-- The Python exceptions the engine can raise. -/
inductive Err where
  /-- `ValueError` from unpacking a `split` result of the wrong length. -/
  | valueUnpack : Err
  /-- `IndexError` from indexing a too-short genotype string. -/
  | indexOutOfRange : Err
  /-- `ValueError("One or both parents lack genetic information")`. -/
  | invalidParents : Err
deriving DecidableEq

-- ===== string constants (Python string literals, as character lists) =====

def coatColorS : Str := ['c', 'o', 'a', 't', '_', 'c', 'o', 'l', 'o', 'r']
def hairLengthS : Str := ['h', 'a', 'i', 'r', '_', 'l', 'e', 'n', 'g', 't', 'h']
def speedS : Str := ['s', 'p', 'e', 'e', 'd']
def enduranceS : Str := ['e', 'n', 'd', 'u', 'r', 'a', 'n', 'c', 'e']
def agilityS : Str := ['a', 'g', 'i', 'l', 'i', 't', 'y']
def movementS : Str := ['m', 'o', 'v', 'e', 'm', 'e', 'n', 't']
def staminaS : Str := ['s', 't', 'a', 'm', 'i', 'n', 'a']
def energyS : Str := ['e', 'n', 'e', 'r', 'g', 'y']
def commonS : Str := ['C', 'o', 'm', 'm', 'o', 'n']
def uncommonS : Str := ['U', 'n', 'c', 'o', 'm', 'm', 'o', 'n']
def rareS : Str := ['R', 'a', 'r', 'e']
def legendaryS : Str := ['L', 'e', 'g', 'e', 'n', 'd', 'a', 'r', 'y']
def shortS : Str := ['s', 'h', 'o', 'r', 't']
def fluffyS : Str := ['f', 'l', 'u', 'f', 'f', 'y']
def wwS : Str := ['W', 'W']
def hhS : Str := ['h', 'h']
def hairDefaultS : Str := ['H', 'H']
def speedDefaultS : Str := ['F', 'f']
def endDefaultS : Str := ['E', 'e']
def ffUpperS : Str := ['F', 'F']
def ffLowerS : Str := ['f', 'f']
def eeUpperS : Str := ['E', 'E']
def eeLowerS : Str := ['e', 'e']
def brownS : Str := ['B', 'r', 'o', 'w', 'n']
def orangeS : Str := ['O', 'r', 'a', 'n', 'g', 'e']
def whiteS : Str := ['W', 'h', 'i', 't', 'e']
def unknownS : Str := ['U', 'n', 'k', 'n', 'o', 'w', 'n']
def homozygousS : Str := ['h', 'o', 'm', 'o', 'z', 'y', 'g', 'o', 'u', 's']
def heterozygousS : Str :=
  ['h', 'e', 't', 'e', 'r', 'o', 'z', 'y', 'g', 'o', 'u', 's']
def dominantTypeS : Str := ['d', 'o', 'm', 'i', 'n', 'a', 'n', 't']
def coDominantS : Str :=
  ['c', 'o', '-', 'd', 'o', 'm', 'i', 'n', 'a', 'n', 't']
def pureSuffixS : Str := [' ', '(', 'p', 'u', 'r', 'e', ')']
def mixSuffixS : Str := [' ', 'm', 'i', 'x']
def fromOpenS : Str := [' ', '(', 'f', 'r', 'o', 'm', ' ']
def xMidS : Str := [' ', 'x', ' ']
def barSepS : Str := [' ', '|', ' ']

-- ===== data model (backend/models.py, the fields the engine touches) =====

/-- A `models.Gene` row. -/
structure Gene where
  id : Nat
  name : Str
  trait : Str
deriving DecidableEq

/-- A `models.Allele` row. -/
structure Allele where
  id : Nat
  gene_id : Nat
  name : Str
  symbol : Char   -- one-character symbol (data-model invariant)
  dominance_level : Int
  effect_value : Int
deriving DecidableEq

/-- A `models.Pet` row (the fields read or written by the engine). -/
structure Pet where
  id : Nat
  owner_id : Nat
  name : Str
  species : Str
  color : Str
  color_phenotype : Option Str
  hair_type : Str
  genetic_code : Option Str
  speed : Int
  endurance : Int
  rarity_score : Int
  rarity_tier : Option Str
  market_value : Int
deriving DecidableEq

/-- A `models.PetGenetics` row, with its ORM relationships
(`pg.gene`, `pg.allele1`, `pg.allele2`) embedded. -/
structure PetGenetics where
  pet_id : Nat
  gene_id : Nat
  allele1_id : Nat
  allele2_id : Nat
  gene : Gene
  allele1 : Allele
  allele2 : Allele
deriving DecidableEq

/-- One entry of the `punnett_squares` list built by `BreedingEngine.breed`. -/
structure PunnettRec where
  gene_name : Str
  parent1_genotype : Str
  parent2_genotype : Str
  possible_offspring : List Str
  probabilities : List (Str × ℚ)
  punnett_square : List (List Str)
  offspring_genotype : Str
deriving DecidableEq

/-- A `models.Offspring` audit row. -/
structure OffspringRec where
  parent1_id : Nat
  parent2_id : Nat
  child_id : Nat
  punnett_square_data : List PunnettRec
  inheritance_notes : Str
deriving DecidableEq

/-- The database session: table contents plus the next autoincrement id. -/
structure Db where
  pets : List Pet
  petGenetics : List PetGenetics
  alleles : List Allele
  offspringRecords : List OffspringRec
  nextPetId : Nat
deriving DecidableEq

-- ===== PunnettSquare (genetics.py lines 17-132) =====

/-- `"".join(tuple(sorted([x, y])))` for one-character allele symbols. -/
def sortedPair (x y : Char) : Str := if x ≤ y then [x, y] else [y, x]

/-- Result of `PunnettSquare.calculate`. -/
structure PunnettResult where
  punnett_square : List (List Str)
  possible_offspring : List Str
  probabilities : List (Str × ℚ)
  offspring_genotypes : List Str
deriving DecidableEq

/-- `PunnettSquare.calculate`: the 2×2 gamete grid, each cell the two
contributed symbols sorted alphabetically; probabilities are
`count / 4 * 100`. -/
def PunnettSquare.calculate (parent1_alleles parent2_alleles : Char × Char) :
    PunnettResult :=
  let p1s := [parent1_alleles.1, parent1_alleles.2]
  let p2s := [parent2_alleles.1, parent2_alleles.2]
  let grid := p1s.map (fun a => p2s.map (fun b => sortedPair a b))
  let offspring := grid.flatten
  let keys := keysInOrder offspring
  { punnett_square := grid
    possible_offspring := keys
    probabilities :=
      keys.map (fun g =>
        (g, ((offspring.count g : ℚ) / (offspring.length : ℚ)) * 100))
    offspring_genotypes := offspring }

/-- Result dict of `PunnettSquare.get_phenotype`; keys absent from a branch
are `none`. -/
structure PhenotypeInfo where
  phenotype : Str
  genotype : Option Str
  effect_value : Int
  inheritance_type : Str
  is_pure : Option Bool
deriving DecidableEq

/-- The hard-coded coat-colour dominance table `{"B": 3, "O": 2, "W": 1}`
with `.get(-, 0)`. -/
def coatDom (c : Char) : Int :=
  if c = 'B' then 3 else if c = 'O' then 2 else if c = 'W' then 1 else 0

/-- `PunnettSquare.get_phenotype`: dominance resolution; the dedicated
homozygous/incomplete-dominance branches exist only for `coat_color`. -/
def PunnettSquare.get_phenotype (allele1 allele2 : Allele)
    (gene_name : Option Str) : PhenotypeInfo :=
  if gene_name = some coatColorS then
    let a1_sym := allele1.symbol
    let a2_sym := allele2.symbol
    if a1_sym = a2_sym then
      { phenotype := allele1.name ++ pureSuffixS
        genotype := some [a1_sym, a2_sym]
        effect_value := allele1.effect_value
        inheritance_type := homozygousS
        is_pure := some true }
    else
      let avg_effect : ℚ :=
        ((allele1.effect_value : ℚ) + (allele2.effect_value : ℚ)) / 2
      let dominant :=
        if coatDom a1_sym > coatDom a2_sym then allele1 else allele2
      let recessive :=
        if coatDom a1_sym > coatDom a2_sym then allele2 else allele1
      { phenotype := dominant.name ++ '-' :: recessive.name ++ mixSuffixS
        genotype := some (sortedPair a1_sym a2_sym)
        effect_value := truncQ avg_effect
        inheritance_type := heterozygousS
        is_pure := some false }
  else if allele1.dominance_level > allele2.dominance_level then
    { phenotype := [allele1.symbol]
      genotype := none
      effect_value := allele1.effect_value
      inheritance_type := dominantTypeS
      is_pure := none }
  else if allele2.dominance_level > allele1.dominance_level then
    { phenotype := [allele2.symbol]
      genotype := none
      effect_value := allele2.effect_value
      inheritance_type := dominantTypeS
      is_pure := none }
  else
    { phenotype := [allele1.symbol, '/', allele2.symbol]
      genotype := none
      effect_value :=
        truncQ (((allele1.effect_value : ℚ) + (allele2.effect_value : ℚ)) / 2)
      inheritance_type := coDominantS
      is_pure := none }

-- ===== GeneticCode (genetics.py lines 139-204) =====

/-- The segment `f"{pg.gene.name}:{pg.allele1.symbol}-{pg.allele2.symbol}"`. -/
def segOf (pg : PetGenetics) : Str :=
  pg.gene.name ++ ':' :: pg.allele1.symbol :: '-' :: [pg.allele2.symbol]

/-- `GeneticCode.encode`: `";".join` of the per-row segments. -/
def GeneticCode.encode (pet_genetics : List PetGenetics) : Str :=
  joinSep ';' (pet_genetics.map segOf)

/-- The loop body of `GeneticCode.decode`.  A segment with no `:` is skipped;
a segment whose `:`-split or `-`-split does not have exactly two parts makes
the tuple unpacking raise `ValueError`. -/
def GeneticCode.decodeLoop :
    List Str → List (Str × Str × Str) → Except Err (List (Str × Str × Str))
  | [], acc => .ok acc
  | seg :: rest, acc =>
    if ':' ∈ seg then
      match splitOn ':' seg with
      | [gene_name, alleles] =>
        match splitOn '-' alleles with
        | [allele1, allele2] =>
          GeneticCode.decodeLoop rest (upsert gene_name (allele1, allele2) acc)
        | _ => .error .valueUnpack
      | _ => .error .valueUnpack
    else GeneticCode.decodeLoop rest acc

/-- `GeneticCode.decode`: gene name ↦ (allele string, allele string). -/
def GeneticCode.decode (genetic_code : Str) :
    Except Err (List (Str × Str × Str)) :=
  GeneticCode.decodeLoop (splitOn ';' genetic_code) []

-- ===== RarityCalculator (pricing.py) =====

/-- Python truthiness of `pet.genetic_code` (`None` and `""` are falsy). -/
def codeFalsy : Option Str → Bool
  | none => true
  | some s => decide (s = [])

/-- `pet.genetic_code or ""`. -/
def codeOrEmpty (c : Option Str) : Str := c.getD []

/-- `pet.rarity_tier or "Common"` (`None` and `""` are falsy). -/
def tierOrCommon : Option Str → Str
  | none => commonS
  | some t => if t = [] then commonS else t

/-- The loop body of `RarityCalculator.parse_genetic_code`: segments lacking
a `:` are skipped; a segment whose `:`-split does not have exactly two parts
makes the tuple unpacking raise `ValueError`. -/
def RarityCalculator.parseLoop :
    List Str → List (Str × Str) → Except Err (List (Str × Str))
  | [], acc => .ok acc
  | seg :: rest, acc =>
    if ':' ∈ seg then
      match splitOn ':' seg with
      | [gene_name, alleles] =>
        RarityCalculator.parseLoop rest
          (upsert (pyStrip gene_name) (pyStrip alleles) acc)
      | _ => .error .valueUnpack
    else RarityCalculator.parseLoop rest acc

/-- `RarityCalculator.parse_genetic_code`. -/
def RarityCalculator.parse_genetic_code (genetic_code : Str) :
    Except Err (List (Str × Str)) :=
  if genetic_code = [] then .ok []
  else RarityCalculator.parseLoop (splitOn ';' genetic_code) []

/-- Result dict of `RarityCalculator.get_coat_phenotype`. -/
structure CoatInfo where
  phenotype : Str
  genotype : Str
  is_pure : Bool
  rarity_bonus : Int
deriving DecidableEq

/-- Result dict of `RarityCalculator.get_hair_type`. -/
structure HairInfo where
  type : Str
  genotype : Str
  is_fluffy : Bool
  rarity_bonus : Int
deriving DecidableEq

/-- `{"B": "Brown", "O": "Orange", "W": "White"}.get(c, "Unknown")`. -/
def colorName (c : Char) : Str :=
  if c = 'B' then brownS
  else if c = 'O' then orangeS
  else if c = 'W' then whiteS
  else unknownS

/-- `RarityCalculator.get_coat_phenotype`: indexing `coat_genotype[0]` and
`coat_genotype[1]` raises `IndexError` when the genotype string is shorter
than two characters. -/
def RarityCalculator.get_coat_phenotype (genetic_code : Str) :
    Except Err CoatInfo :=
  match RarityCalculator.parse_genetic_code genetic_code with
  | .error e => .error e
  | .ok genes =>
    let coat_genotype := dictGet genes coatColorS wwS
    match coat_genotype with
    | allele1 :: allele2 :: _ =>
      if allele1 = allele2 then
        .ok { phenotype := colorName allele1 ++ pureSuffixS
              genotype := coat_genotype
              is_pure := true
              rarity_bonus := 5 }
      else
        let dominant :=
          if coatDom allele1 > coatDom allele2 then allele1 else allele2
        let recessive :=
          if coatDom allele1 > coatDom allele2 then allele2 else allele1
        .ok { phenotype :=
                colorName dominant ++ '-' :: colorName recessive ++ mixSuffixS
              genotype := coat_genotype
              is_pure := false
              rarity_bonus := 2 }
    | _ => .error .indexOutOfRange

/-- `RarityCalculator.get_hair_type`. -/
def RarityCalculator.get_hair_type (genetic_code : Str) :
    Except Err HairInfo :=
  match RarityCalculator.parse_genetic_code genetic_code with
  | .error e => .error e
  | .ok genes =>
    let hair_genotype := dictGet genes hairLengthS hairDefaultS
    let is_fluffy :=
      decide ('h' ∈ hair_genotype) && decide (1 ≤ hair_genotype.count 'h')
    let is_homozygous_recessive := decide (hair_genotype = hhS)
    .ok { type := if is_fluffy then fluffyS else shortS
          genotype := hair_genotype
          is_fluffy := is_fluffy
          rarity_bonus :=
            if is_homozygous_recessive then 3 else if is_fluffy then 1 else 0 }

/-- `RarityCalculator.calculate_rarity_score`.  A pet with falsy
`genetic_code` scores 0 immediately. -/
def RarityCalculator.calculate_rarity_score (pet : Pet) : Except Err Int :=
  if codeFalsy pet.genetic_code then .ok 0
  else
    let code := codeOrEmpty pet.genetic_code
    match RarityCalculator.parse_genetic_code code with
    | .error e => .error e
    | .ok genes =>
      match RarityCalculator.get_coat_phenotype code with
      | .error e => .error e
      | .ok coat_info =>
        match RarityCalculator.get_hair_type code with
        | .error e => .error e
        | .ok hair_info =>
          let speed_genotype := dictGet genes speedS speedDefaultS
          let endurance_genotype := dictGet genes enduranceS endDefaultS
          let speedPts : Int :=
            if speed_genotype = ffUpperS ∨ speed_genotype = ffLowerS then 2
            else 1
          let endPts : Int :=
            if endurance_genotype = eeUpperS ∨ endurance_genotype = eeLowerS
            then 2 else 1
          let stat_avg : ℚ := ((pet.speed : ℚ) + (pet.endurance : ℚ)) / 2
          let statPts : Int :=
            if stat_avg ≥ 80 then 5
            else if stat_avg ≥ 70 then 3
            else if stat_avg ≥ 60 then 1
            else 0
          .ok (coat_info.rarity_bonus + hair_info.rarity_bonus
                + speedPts + endPts + statPts)

/-- `RarityCalculator.get_rarity_tier`: fixed thresholds. -/
def RarityCalculator.get_rarity_tier (rarity_score : Int) : Str :=
  if rarity_score ≥ 16 then legendaryS
  else if rarity_score ≥ 11 then rareS
  else if rarity_score ≥ 6 then uncommonS
  else commonS

/-- `base_prices.get(tier, 100)`. -/
def basePrices (tier : Str) : Int :=
  if tier = commonS then 100
  else if tier = uncommonS then 500
  else if tier = rareS then 2000
  else if tier = legendaryS then 10000
  else 100

/-- The pricing tail of `RarityCalculator.calculate_market_value`
(pricing.py lines 199-232), run on the pet after the conditional rarity
recomputation. -/
def RarityCalculator.cmvPrice (pet1 : Pet) : Except Err (Pet × Int) :=
  let tier := tierOrCommon pet1.rarity_tier
  let base_price := basePrices tier
  let stat_avg : ℚ := ((pet1.speed : ℚ) + (pet1.endurance : ℚ)) / 2
  let stat_multiplier : ℚ := 1/2 + stat_avg / 100 * (3/2)
  match RarityCalculator.get_coat_phenotype
          (codeOrEmpty pet1.genetic_code) with
  | .error e => .error e
  | .ok coat_info =>
    let color_multiplier : ℚ := if coat_info.is_pure then 3/2 else 1
    match RarityCalculator.get_hair_type (codeOrEmpty pet1.genetic_code) with
    | .error e => .error e
    | .ok hair_info =>
      let hair_multiplier : ℚ := if hair_info.is_fluffy then 13/10 else 1
      let price := truncQ ((base_price : ℚ) * stat_multiplier
                            * color_multiplier * hair_multiplier)
      .ok (pet1, max price 50)

/-- `RarityCalculator.calculate_market_value`.  Returns the pet as mutated by
the call (rarity fields recomputed only when `rarity_score == 0`) together
with the returned price. -/
def RarityCalculator.calculate_market_value (pet : Pet) :
    Except Err (Pet × Int) :=
  match (if pet.rarity_score = 0 then
          (RarityCalculator.calculate_rarity_score pet).map (fun r =>
            { pet with rarity_score := r,
                       rarity_tier :=
                         some (RarityCalculator.get_rarity_tier r) })
         else .ok pet) with
  | .error e => .error e
  | .ok pet1 => RarityCalculator.cmvPrice pet1

/-- `RarityCalculator.calculate_and_store_valuation`: recompute rarity and
price and write the valuation fields back onto the pet. -/
def RarityCalculator.calculate_and_store_valuation (pet : Pet) :
    Except Err Pet :=
  match RarityCalculator.calculate_rarity_score pet with
  | .error e => .error e
  | .ok r =>
    let pet1 := { pet with rarity_score := r,
                           rarity_tier :=
                             some (RarityCalculator.get_rarity_tier r) }
    match RarityCalculator.calculate_market_value pet1 with
    | .error e => .error e
    | .ok (pet2, mv) =>
      let pet3 := { pet2 with market_value := mv }
      match RarityCalculator.get_coat_phenotype
              (codeOrEmpty pet3.genetic_code) with
      | .error e => .error e
      | .ok coat_info =>
        match RarityCalculator.get_hair_type
                (codeOrEmpty pet3.genetic_code) with
        | .error e => .error e
        | .ok hair_info =>
          .ok { pet3 with color_phenotype := some coat_info.phenotype,
                          hair_type := hair_info.type }

-- ===== BreedingEngine (genetics.py lines 211-397) =====

/-- The `gene_stat_mapping` keyword test for the speed bucket:
`any(trait in gene_trait for trait in ["speed", "agility", "movement"])`
on the lowercased gene name. -/
def routedToSpeed (gene_trait : Str) : Bool :=
  [speedS, agilityS, movementS].any (fun k => hasSub k gene_trait)

/-- The keyword test for the endurance bucket
(`["endurance", "stamina", "energy"]`). -/
def routedToEndurance (gene_trait : Str) : Bool :=
  [enduranceS, staminaS, energyS].any (fun k => hasSub k gene_trait)

/-- The accumulation loop of `update_stats_from_genetics`: add each row's
phenotype effect value to every stat bucket whose keyword list matches the
lowercased gene name. -/
def BreedingEngine.statModLoop : List PetGenetics → Int → Int → Int × Int
  | [], s, e => (s, e)
  | pg :: rest, s, e =>
    let gene_trait := lowerStr pg.gene.name
    let effect_value :=
      (PunnettSquare.get_phenotype pg.allele1 pg.allele2
        (some pg.gene.name)).effect_value
    BreedingEngine.statModLoop rest
      (if routedToSpeed gene_trait then s + effect_value else s)
      (if routedToEndurance gene_trait then e + effect_value else e)

/-- `BreedingEngine.update_stats_from_genetics`.  `r_speed` and
`r_endurance` are the two `random.randint(-5, 5)` draws.  A pet with no
genetics rows is returned unchanged (the early `return`). -/
def BreedingEngine.update_stats_from_genetics (db : Db) (pet : Pet)
    (r_speed r_endurance : Int) : Pet :=
  let pet_genetics := db.petGenetics.filter (fun pg => decide (pg.pet_id = pet.id))
  if pet_genetics = [] then pet
  else
    let mods := BreedingEngine.statModLoop pet_genetics 0 0
    let sp := truncQ ((50 : ℚ) + (mods.1 : ℚ) * (7/10) + (r_speed : ℚ))
    let en := truncQ ((50 : ℚ) + (mods.2 : ℚ) * (7/10) + (r_endurance : ℚ))
    { pet with speed := max 0 (min 100 sp),
               endurance := max 0 (min 100 en) }

/-- The per-gene loop of `BreedingEngine.breed` over
`zip(parent1_genetics, parent2_genetics)`.  A position whose two rows have
different `gene_id`s is skipped (`continue`).  `rng` supplies the
`random.choice` index for each processed position; outputs are the
`offspring_alleles` dict (gene id ↦ (gene, allele, allele)), the
`punnett_squares` list, the `inheritance_notes` list, and the unused rng. -/
def BreedingEngine.breedLoop (db : Db) (p1name p2name : Str) :
    List (PetGenetics × PetGenetics) → List Nat →
    List (Nat × Gene × Allele × Allele) → List PunnettRec → List Str →
    List (Nat × Gene × Allele × Allele) × List PunnettRec × List Str × List Nat
  | [], rng, acc, ps, notes => (acc, ps, notes, rng)
  | (p1_gene, p2_gene) :: rest, rng, acc, ps, notes =>
    if p1_gene.gene_id ≠ p2_gene.gene_id then
      BreedingEngine.breedLoop db p1name p2name rest rng acc ps notes
    else
      let gene := p1_gene.gene
      let p1_alleles : Char × Char :=
        (p1_gene.allele1.symbol, p1_gene.allele2.symbol)
      let p2_alleles : Char × Char :=
        (p2_gene.allele1.symbol, p2_gene.allele2.symbol)
      let ps_result := PunnettSquare.calculate p1_alleles p2_alleles
      let offspring_genotype :=
        ps_result.offspring_genotypes.getD
          (rng.headD 0 % ps_result.offspring_genotypes.length) []
      let s0 := offspring_genotype.getD 0 'A'
      let s1 := offspring_genotype.getD 1 'A'
      let allele1_obj := db.alleles.find?
        (fun a => decide (a.gene_id = gene.id) && decide (a.symbol = s0))
      let allele2_obj := db.alleles.find?
        (fun a => decide (a.gene_id = gene.id) && decide (a.symbol = s1))
      let acc' :=
        match allele1_obj, allele2_obj with
        | some a1, some a2 => upsert gene.id (gene, a1, a2) acc
        | _, _ => acc
      let pRec : PunnettRec :=
        { gene_name := gene.name
          parent1_genotype := [p1_alleles.1, p1_alleles.2]
          parent2_genotype := [p2_alleles.1, p2_alleles.2]
          possible_offspring := ps_result.possible_offspring
          probabilities := ps_result.probabilities
          punnett_square := ps_result.punnett_square
          offspring_genotype := offspring_genotype }
      let note :=
        gene.trait ++ ':' :: ' ' :: offspring_genotype ++ fromOpenS
          ++ p1name ++ ':' :: p1_alleles.1 :: '/' :: [p1_alleles.2]
          ++ xMidS
          ++ p2name ++ ':' :: p2_alleles.1 :: '/' :: [p2_alleles.2]
          ++ [')']
      BreedingEngine.breedLoop db p1name p2name rest rng.tail acc'
        (ps ++ [pRec]) (notes ++ [note])

/-- `BreedingEngine.breed`.  Raises the invalid-input `ValueError` before any
session mutation when either parent has no genetics rows; on success returns
the updated session together with `(offspring, punnett_squares,
inheritance_summary)`.  The offspring pet starts from the column defaults of
`models.Pet`; `db.flush()` assigns it `db.nextPetId`. -/
def BreedingEngine.breed (db : Db) (parent1 parent2 : Pet)
    (child_name child_species child_color : Str) (owner_id : Nat)
    (rng : List Nat) (r_speed r_endurance : Int) :
    Except Err (Db × Pet × List PunnettRec × Str) :=
  let parent1_genetics :=
    db.petGenetics.filter (fun pg => decide (pg.pet_id = parent1.id))
  let parent2_genetics :=
    db.petGenetics.filter (fun pg => decide (pg.pet_id = parent2.id))
  if parent1_genetics = [] ∨ parent2_genetics = [] then
    .error .invalidParents
  else
    let res := BreedingEngine.breedLoop db parent1.name parent2.name
      (parent1_genetics.zip parent2_genetics) rng [] [] []
    let offspring_alleles := res.1
    let punnett_squares := res.2.1
    let inheritance_notes := res.2.2.1
    let offspring : Pet :=
      { id := db.nextPetId, owner_id := owner_id, name := child_name,
        species := child_species, color := child_color,
        color_phenotype := none, hair_type := shortS, genetic_code := none,
        speed := 50, endurance := 50, rarity_score := 0,
        rarity_tier := some commonS, market_value := 100 }
    let newRows := offspring_alleles.map (fun e =>
      ({ pet_id := offspring.id, gene_id := e.1,
         allele1_id := e.2.2.1.id, allele2_id := e.2.2.2.id,
         gene := e.2.1, allele1 := e.2.2.1,
         allele2 := e.2.2.2 } : PetGenetics))
    let db1 : Db := { db with petGenetics := db.petGenetics ++ newRows,
                              nextPetId := db.nextPetId + 1 }
    let offspring_genetics :=
      db1.petGenetics.filter (fun pg => decide (pg.pet_id = offspring.id))
    let offspring1 :=
      { offspring with genetic_code := some (GeneticCode.encode offspring_genetics) }
    let offspring2 :=
      BreedingEngine.update_stats_from_genetics db1 offspring1
        r_speed r_endurance
    match RarityCalculator.calculate_and_store_valuation offspring2 with
    | .error e => .error e
    | .ok offspring3 =>
      let inheritance_summary := joinWith barSepS inheritance_notes
      let offspring_record : OffspringRec :=
        { parent1_id := parent1.id, parent2_id := parent2.id,
          child_id := offspring3.id,
          punnett_square_data := punnett_squares,
          inheritance_notes := inheritance_summary }
      let db2 : Db := { db1 with
        pets := db1.pets ++ [offspring3],
        offspringRecords := db1.offspringRecords ++ [offspring_record] }
      .ok (db2, offspring3, punnett_squares, inheritance_summary)

-- ===== claim-side definitions (written from the spec's words) =====

/-- C1's well-formedness hypothesis as the claim states it: a mapping
(pairwise-distinct gene names), gene names containing no `:`/`;`/`-`; the
"exactly two one-character allele symbols" part is structural
(`Allele.symbol : Char`).  Note the claim does not constrain the symbols. -/
def C1wf (rows : List PetGenetics) : Prop :=
  (rows.map (fun pg => pg.gene.name)).Nodup ∧
  ∀ pg ∈ rows,
    ':' ∉ pg.gene.name ∧ ';' ∉ pg.gene.name ∧ '-' ∉ pg.gene.name

instance (rows : List PetGenetics) : Decidable (C1wf rows) := by
  unfold C1wf; infer_instance

/-- The gene-name-to-allele-pair content of a genotype row list, as the
decoded form represents it. -/
def rowContent (rows : List PetGenetics) : List (Str × Str × Str) :=
  rows.map (fun pg =>
    (pg.gene.name, [pg.allele1.symbol], [pg.allele2.symbol]))

/-- A decode segment the code accepts: either it has no `:` (skipped), or it
splits on `:` into exactly two parts whose allele half splits on `-` into
exactly two parts. -/
def segWellFormed (seg : Str) : Bool :=
  if ':' ∈ seg then
    match splitOn ':' seg with
    | [_, alleles] =>
      match splitOn '-' alleles with
      | [_, _] => true
      | _ => false
    | _ => false
  else true

/-- The invariant C8 claims of every `offspring_alleles` entry: both alleles
belong to the gene id under which the entry is stored. -/
def entrySameGene (e : Nat × Gene × Allele × Allele) : Prop :=
  e.2.2.1.gene_id = e.1 ∧ e.2.2.2.gene_id = e.1

/-- The market value exactly as claim C5 words it:
`round(base[tier] * stat_multiplier * color_multiplier * hair_multiplier)`
floored at 50, with the coat/hair genotypes read from the parsed genetic
code (defaults `WW`/`HH`). -/
def C5valueClaimed (tier : Str) (speed endurance : Int) (code : Str) :
    Except Err Int :=
  match RarityCalculator.parse_genetic_code code with
  | .error e => .error e
  | .ok genes =>
    match dictGet genes coatColorS wwS with
    | a1 :: a2 :: _ =>
      let homozygous := decide (a1 = a2)
      let hair_genotype := dictGet genes hairLengthS hairDefaultS
      let stat_multiplier : ℚ :=
        1/2 + (((speed : ℚ) + (endurance : ℚ)) / 2) / 100 * (3/2)
      let color_multiplier : ℚ := if homozygous then 3/2 else 1
      let hair_multiplier : ℚ := if 'h' ∈ hair_genotype then 13/10 else 1
      .ok (max (round ((basePrices tier : ℚ) * stat_multiplier
                        * color_multiplier * hair_multiplier)) 50)
    | _ => .error .indexOutOfRange

/-- C5 as amended: identical to `C5valueClaimed` except that the product is
truncated toward zero (Python `int`) instead of rounded. -/
def C5valueAmended (tier : Str) (speed endurance : Int) (code : Str) :
    Except Err Int :=
  match RarityCalculator.parse_genetic_code code with
  | .error e => .error e
  | .ok genes =>
    match dictGet genes coatColorS wwS with
    | a1 :: a2 :: _ =>
      let homozygous := decide (a1 = a2)
      let hair_genotype := dictGet genes hairLengthS hairDefaultS
      let stat_multiplier : ℚ :=
        1/2 + (((speed : ℚ) + (endurance : ℚ)) / 2) / 100 * (3/2)
      let color_multiplier : ℚ := if homozygous then 3/2 else 1
      let hair_multiplier : ℚ := if 'h' ∈ hair_genotype then 13/10 else 1
      .ok (max (truncQ ((basePrices tier : ℚ) * stat_multiplier
                         * color_multiplier * hair_multiplier)) 50)
    | _ => .error .indexOutOfRange

/-- The per-stat formula exactly as claim C7 words it:
`clamp(0, 100, round(50 + modifier*0.7 + r))`. -/
def C7statClaimed (modifier r : Int) : Int :=
  max 0 (min 100 (round ((50 : ℚ) + (modifier : ℚ) * (7/10) + (r : ℚ))))

/-- C7 as amended: the same formula with Python `int` truncation in place of
rounding. -/
def C7statAmended (modifier r : Int) : Int :=
  max 0 (min 100 (truncQ ((50 : ℚ) + (modifier : ℚ) * (7/10) + (r : ℚ))))

/-- The phenotype effect value a genetics row contributes
(via `PunnettSquare.get_phenotype`). -/
def effectOf (pg : PetGenetics) : Int :=
  (PunnettSquare.get_phenotype pg.allele1 pg.allele2
    (some pg.gene.name)).effect_value

/-- The speed-bucket modifier as claim C7 words it: the sum of phenotype
effect values over the rows whose (lowercased) gene name matches the speed
keyword list. -/
def C7speedModifier (rows : List PetGenetics) : Int :=
  ((rows.filter (fun pg => routedToSpeed (lowerStr pg.gene.name))).map
    effectOf).sum

/-- The endurance-bucket modifier of claim C7. -/
def C7enduranceModifier (rows : List PetGenetics) : Int :=
  ((rows.filter (fun pg => routedToEndurance (lowerStr pg.gene.name))).map
    effectOf).sum

-- ===== concrete fixtures for witnesses and counterexamples =====

/-- The seeded coat-colour gene (`initialize_genetics_system`). -/
def geneCoat : Gene := { id := 1, name := coatColorS,
                         trait := ['C', 'o', 'a', 't'] }

/-- The seeded hair-length gene. -/
def geneHair : Gene := { id := 2, name := hairLengthS,
                         trait := ['H', 'a', 'i', 'r'] }

/-- The seeded speed gene. -/
def geneSpeed : Gene := { id := 3, name := speedS,
                          trait := ['S', 'p', 'e', 'e', 'd'] }

/-- The seeded Brown coat allele (B, dominance 3, effect 20). -/
def alleleB : Allele := { id := 1, gene_id := 1, name := brownS,
                          symbol := 'B', dominance_level := 3,
                          effect_value := 20 }

/-- The seeded White coat allele (W, dominance 1, effect 0). -/
def alleleW : Allele := { id := 3, gene_id := 1, name := whiteS,
                          symbol := 'W', dominance_level := 1,
                          effect_value := 0 }

/-- The seeded Short hair allele (H, dominance 2, effect 5). -/
def alleleH : Allele := { id := 4, gene_id := 2,
                          name := ['S', 'h', 'o', 'r', 't'],
                          symbol := 'H', dominance_level := 2,
                          effect_value := 5 }

/-- A speed-gene allele with effect value 5, used to exhibit the fractional
`modifier * 0.7` case of claim C7. -/
def alleleZ : Allele := { id := 9, gene_id := 3,
                          name := ['Z', 'e', 't', 'a'],
                          symbol := 'Z', dominance_level := 1,
                          effect_value := 5 }

/-- A genotype row whose allele symbol is the one-character string `-`:
well-formed for claim C1 as stated, but fatal to the codec. -/
def rowDash : PetGenetics :=
  { pet_id := 1, gene_id := 5, allele1_id := 21, allele2_id := 22,
    gene := { id := 5, name := ['g'], trait := ['G'] },
    allele1 := { id := 21, gene_id := 5, name := ['D', 'a', 's', 'h'],
                 symbol := '-', dominance_level := 1, effect_value := 0 },
    allele2 := { id := 22, gene_id := 5, name := ['E', 'x'],
                 symbol := 'x', dominance_level := 1, effect_value := 0 } }

/-- A coat-colour genotype row (B/W) for the C1 witness. -/
def rowCoat : PetGenetics :=
  { pet_id := 1, gene_id := 1, allele1_id := 1, allele2_id := 3,
    gene := geneCoat, allele1 := alleleB, allele2 := alleleW }

/-- A hair-length genotype row (H/H) for the C1 witness. -/
def rowHair : PetGenetics :=
  { pet_id := 1, gene_id := 2, allele1_id := 4, allele2_id := 4,
    gene := geneHair, allele1 := alleleH, allele2 := alleleH }

/-- A speed-gene genotype row carrying `alleleZ` twice (effect 5, routed to
the speed bucket, modifier 5). -/
def rowZ : PetGenetics :=
  { pet_id := 1, gene_id := 3, allele1_id := 9, allele2_id := 9,
    gene := geneSpeed, allele1 := alleleZ, allele2 := alleleZ }

/-- The pet used to exhibit claim C5's rounding divergence: stats 4/0 give a
price of exactly 79.5 before `int()`. -/
def petC5 : Pet :=
  { id := 1, owner_id := 1, name := ['P'], species := ['g'], color := ['b'],
    color_phenotype := none, hair_type := shortS, genetic_code := none,
    speed := 4, endurance := 0, rarity_score := 1,
    rarity_tier := some commonS, market_value := 100 }

/-- A pet with nonzero rarity score used for the C5/C10 witnesses. -/
def petW : Pet :=
  { id := 2, owner_id := 1, name := ['Q'], species := ['g'], color := ['b'],
    color_phenotype := none, hair_type := shortS, genetic_code := none,
    speed := 50, endurance := 50, rarity_score := 5,
    rarity_tier := some rareS, market_value := 100 }

/-- A pet with rarity score 0 and empty genetic code (column defaults). -/
def petZero : Pet :=
  { id := 3, owner_id := 1, name := ['R'], species := ['g'], color := ['b'],
    color_phenotype := none, hair_type := shortS, genetic_code := none,
    speed := 100, endurance := 100, rarity_score := 0,
    rarity_tier := some rareS, market_value := 100 }

/-- The pet whose stats the C7 counterexample recomputes. -/
def petC7 : Pet :=
  { id := 1, owner_id := 1, name := ['S'], species := ['g'], color := ['b'],
    color_phenotype := none, hair_type := shortS, genetic_code := none,
    speed := 50, endurance := 50, rarity_score := 0,
    rarity_tier := some commonS, market_value := 100 }

/-- A session containing only the `rowZ` genetics row for pet 1. -/
def dbC7 : Db :=
  { pets := [petC7], petGenetics := [rowZ], alleles := [alleleZ],
    offspringRecords := [], nextPetId := 2 }

/-- A session with two pets and no genetics rows at all (the C2 witness). -/
def dbEmptyGenetics : Db :=
  { pets := [petW, petZero], petGenetics := [], alleles := [],
    offspringRecords := [], nextPetId := 4 }

-- ===== helper lemmas =====

lemma splitOn_ne_nil (c : Char) (s : Str) : splitOn c s ≠ [] := by
  cases s with
  | nil => simp [splitOn]
  | cons x xs =>
    unfold splitOn
    cases h : splitOn c xs with
    | nil => simp
    | cons a l => by_cases hx : x = c <;> simp [hx]

lemma splitOn_not_mem {c : Char} {s : Str} (h : c ∉ s) : splitOn c s = [s] := by
  induction s with
  | nil => rfl
  | cons x xs ih =>
    have hx : ¬x = c := fun e => h (e ▸ List.mem_cons_self x xs)
    have hxs : c ∉ xs := fun m => h (List.mem_cons_of_mem _ m)
    simp [splitOn, ih hxs, hx]

lemma splitOn_append {c : Char} {s : Str} (t : Str) (h : c ∉ s) :
    splitOn c (s ++ c :: t) = s :: splitOn c t := by
  induction s with
  | nil =>
    simp only [List.nil_append]
    cases hs : splitOn c t with
    | nil => exact absurd hs (splitOn_ne_nil c t)
    | cons a l => simp [splitOn, hs]
  | cons x xs ih =>
    have hx : ¬x = c := fun e => h (e ▸ List.mem_cons_self x xs)
    have hxs : c ∉ xs := fun m => h (List.mem_cons_of_mem _ m)
    simp only [List.cons_append]
    simp [splitOn, ih hxs, hx]

lemma splitOn_joinSep {c : Char} :
    ∀ parts : List Str, parts ≠ [] → (∀ p ∈ parts, c ∉ p) →
      splitOn c (joinSep c parts) = parts := by
  intro parts
  induction parts with
  | nil => intro h _; exact absurd rfl h
  | cons p rest ih =>
    intro _ hall
    cases rest with
    | nil => exact splitOn_not_mem (hall p (List.mem_cons_self p []))
    | cons q rest' =>
      show splitOn c (p ++ c :: joinSep c (q :: rest')) = _
      rw [splitOn_append _ (hall p (List.mem_cons_self p _))]
      rw [ih (by simp) (fun x hx => hall x (List.mem_cons_of_mem p hx))]

lemma upsert_of_not_mem {κ ν : Type} [DecidableEq κ] {k : κ} {v : ν}
    {d : List (κ × ν)} (h : ∀ e ∈ d, e.1 ≠ k) :
    upsert k v d = d ++ [(k, v)] := by
  have ha : d.any (fun e => decide (e.1 = k)) = false := by
    rw [List.any_eq_false]
    intro e he
    simp [h e he]
  simp [upsert, ha]

lemma mem_keysGo (x : Str) :
    ∀ (l acc : List Str), x ∈ keysGo l acc ↔ x ∈ acc ∨ x ∈ l := by
  intro l
  induction l with
  | nil => intro acc; simp [keysGo]
  | cons a l ih =>
    intro acc
    by_cases ha : a ∈ acc
    · rw [keysGo, if_pos ha, ih]
      constructor
      · rintro (h | h)
        · exact Or.inl h
        · exact Or.inr (List.mem_cons_of_mem a h)
      · rintro (h | h)
        · exact Or.inl h
        · rcases List.mem_cons.mp h with h | h
          · exact Or.inl (h ▸ ha)
          · exact Or.inr h
    · rw [keysGo, if_neg ha, ih]
      simp only [List.mem_append, List.mem_singleton, List.mem_cons]
      tauto

lemma truncQ_intCast (n : ℤ) : truncQ (n : ℚ) = n := by
  unfold truncQ
  split <;> simp

lemma fluffy_decide (hg : Str) :
    (decide ('h' ∈ hg) && decide (1 ≤ hg.count 'h')) = decide ('h' ∈ hg) := by
  by_cases h : 'h' ∈ hg
  · have : 1 ≤ hg.count 'h' := List.count_pos_iff.mpr h
    simp [h, this]
  · simp [h]

-- ===== C1: encode/decode round trip =====

/-- The hypotheses under which the codec round-trips, per amended C1: the
gene name and both one-character allele symbols avoid the three separator
characters. -/
def cleanRow (pg : PetGenetics) : Prop :=
  (':' ∉ pg.gene.name ∧ ';' ∉ pg.gene.name ∧ '-' ∉ pg.gene.name) ∧
  (pg.allele1.symbol ≠ ':' ∧ pg.allele1.symbol ≠ ';'
    ∧ pg.allele1.symbol ≠ '-') ∧
  (pg.allele2.symbol ≠ ':' ∧ pg.allele2.symbol ≠ ';'
    ∧ pg.allele2.symbol ≠ '-')

instance : DecidablePred cleanRow := fun pg => by
  unfold cleanRow; infer_instance

lemma colon_mem_segOf (pg : PetGenetics) : ':' ∈ segOf pg := by
  simp [segOf]

lemma semi_not_mem_segOf {pg : PetGenetics} (h : cleanRow pg) :
    ';' ∉ segOf pg := by
  obtain ⟨⟨-, hn, -⟩, ⟨-, h1, -⟩, ⟨-, h2, -⟩⟩ := h
  intro hm
  simp only [segOf, List.mem_append, List.mem_cons, List.not_mem_nil,
    or_false] at hm
  rcases hm with hm | hm | hm | hm | hm
  · exact hn hm
  · exact absurd hm (by decide)
  · exact h1 hm.symm
  · exact absurd hm (by decide)
  · exact h2 hm.symm

lemma splitOn_colon_segOf {pg : PetGenetics} (h : cleanRow pg) :
    splitOn ':' (segOf pg)
      = [pg.gene.name,
         [pg.allele1.symbol, '-', pg.allele2.symbol]] := by
  obtain ⟨⟨hn, -, -⟩, ⟨h1, -, -⟩, ⟨h2, -, -⟩⟩ := h
  have hno : ':' ∉ ([pg.allele1.symbol, '-', pg.allele2.symbol] : Str) := by
    intro hm
    simp only [List.mem_cons, List.not_mem_nil, or_false] at hm
    rcases hm with hm | hm | hm
    · exact h1 hm.symm
    · exact absurd hm (by decide)
    · exact h2 hm.symm
  unfold segOf
  rw [splitOn_append _ hn, splitOn_not_mem hno]

lemma splitOn_dash_pair {a b : Char} (ha : a ≠ '-') (hb : b ≠ '-') :
    splitOn '-' [a, '-', b] = [[a], [b]] := by
  simp [splitOn, ha, hb]

lemma decodeLoop_cons_seg (name : Str) (s1 s2 : Char) (rest : List Str)
    (acc : List (Str × Str × Str))
    (e1 : splitOn ':' (name ++ ':' :: s1 :: '-' :: [s2])
            = [name, [s1, '-', s2]])
    (h1 : s1 ≠ '-') (h2 : s2 ≠ '-') :
    GeneticCode.decodeLoop ((name ++ ':' :: s1 :: '-' :: [s2]) :: rest) acc
      = GeneticCode.decodeLoop rest (upsert name ([s1], [s2]) acc) := by
  have hcol : ':' ∈ name ++ ':' :: s1 :: '-' :: [s2] := by simp
  simp [GeneticCode.decodeLoop, hcol, e1, splitOn_dash_pair h1 h2]

lemma decodeLoop_rowContent :
    ∀ (rows : List PetGenetics) (acc : List (Str × Str × Str)),
      (∀ pg ∈ rows, cleanRow pg) →
      (rows.map (fun pg => pg.gene.name)).Nodup →
      (∀ pg ∈ rows, ∀ e ∈ acc, e.1 ≠ pg.gene.name) →
      GeneticCode.decodeLoop (rows.map segOf) acc
        = .ok (acc ++ rowContent rows) := by
  intro rows
  induction rows with
  | nil => intro acc _ _ _; simp [GeneticCode.decodeLoop, rowContent]
  | cons pg rest ih =>
    intro acc hclean hnd hacc
    have hc := hclean pg (List.mem_cons_self pg rest)
    have hs1 : pg.allele1.symbol ≠ '-' := hc.2.1.2.2
    have hs2 : pg.allele2.symbol ≠ '-' := hc.2.2.2.2
    simp only [List.map_cons]
    rw [show segOf pg
          = pg.gene.name ++ ':' :: pg.allele1.symbol :: '-'
              :: [pg.allele2.symbol] from rfl,
        decodeLoop_cons_seg _ _ _ _ _
          (splitOn_colon_segOf hc) hs1 hs2]
    rw [upsert_of_not_mem
          (fun e he => hacc pg (List.mem_cons_self pg rest) e he)]
    have hacc' : ∀ q ∈ rest,
        ∀ e ∈ acc ++ [(pg.gene.name,
            ([pg.allele1.symbol] : Str), ([pg.allele2.symbol] : Str))],
          e.1 ≠ q.gene.name := by
      intro q hq e he
      rcases List.mem_append.mp he with h | h
      · exact hacc q (List.mem_cons_of_mem pg hq) e h
      · have he2 := List.mem_singleton.mp h
        subst he2
        have hne : pg.gene.name ≠ q.gene.name := by
          have hnd1 := (List.nodup_cons.mp hnd).1
          intro e2
          have hmem : q.gene.name ∈ List.map (fun r => r.gene.name) rest :=
            List.mem_map_of_mem (fun r => r.gene.name) hq
          rw [← e2] at hmem
          exact hnd1 hmem
        simpa using hne
    rw [ih (acc ++ [(pg.gene.name, [pg.allele1.symbol], [pg.allele2.symbol])])
          (fun q hq => hclean q (List.mem_cons_of_mem pg hq))
          (List.Nodup.of_cons hnd) hacc']
    simp [rowContent]

/-- C1 (corrected): the claim as stated is falsified by a genotype whose
allele symbol is itself `-`: the claim's well-formedness condition `C1wf`
holds, yet decoding the encoded string raises instead of returning the
mapping. -/
theorem cex_C1_roundtrip :
    C1wf [rowDash]
    ∧ GeneticCode.decode (GeneticCode.encode [rowDash])
        = .error Err.valueUnpack
    ∧ ∀ m, GeneticCode.decode (GeneticCode.encode [rowDash]) ≠ .ok m := by
  refine ⟨by decide, rfl, ?_⟩
  intro m h
  rw [show GeneticCode.decode (GeneticCode.encode [rowDash])
        = .error Err.valueUnpack from rfl] at h
  exact Except.noConfusion h

/-- C1 (amended): for a genotype mapping with pairwise-distinct gene names
in which the gene names and additionally the two one-character allele
symbols contain none of `:`, `;`, `-`, decoding the encoded string yields
exactly the gene-to-allele-pair content of the mapping. -/
theorem thm_C1_roundtrip (rows : List PetGenetics)
    (hwf : C1wf rows) (hclean : ∀ pg ∈ rows, cleanRow pg) :
    GeneticCode.decode (GeneticCode.encode rows) = .ok (rowContent rows) := by
  cases rows with
  | nil => rfl
  | cons pg rest =>
    unfold GeneticCode.decode GeneticCode.encode
    rw [splitOn_joinSep ((pg :: rest).map segOf) (by simp)
         (fun p hp => ?_)]
    · exact decodeLoop_rowContent (pg :: rest) [] hclean hwf.1
        (fun q _ e he => absurd he (List.not_mem_nil e))
    · rcases List.mem_map.mp hp with ⟨q, hq, rfl⟩
      exact semi_not_mem_segOf (hclean q hq)

/-- Witness for C1: a concrete two-gene genotype (coat B/W, hair H/H)
round-trips to its content. -/
theorem wit_C1_roundtrip :
    GeneticCode.decode (GeneticCode.encode [rowCoat, rowHair])
      = .ok (rowContent [rowCoat, rowHair]) :=
  thm_C1_roundtrip [rowCoat, rowHair] (by decide) (by decide)

-- ===== C4: decode best-effort claim =====

lemma decodeLoop_isOk :
    ∀ (segs : List Str) (acc : List (Str × Str × Str)),
      exOk (GeneticCode.decodeLoop segs acc) = segs.all segWellFormed := by
  intro segs
  induction segs with
  | nil => intro acc; simp [GeneticCode.decodeLoop, exOk]
  | cons seg rest ih =>
    intro acc
    by_cases hc : ':' ∈ seg
    · rcases h1 : splitOn ':' seg with - | ⟨p, t⟩
      · simp [GeneticCode.decodeLoop, hc, h1, exOk, segWellFormed]
      · rcases t with - | ⟨q, t2⟩
        · simp [GeneticCode.decodeLoop, hc, h1, exOk, segWellFormed]
        · rcases t2 with - | ⟨r, t3⟩
          · rcases h2 : splitOn '-' q with - | ⟨u, s⟩
            · simp [GeneticCode.decodeLoop, hc, h1, h2, exOk, segWellFormed]
            · rcases s with - | ⟨w, s2⟩
              · simp [GeneticCode.decodeLoop, hc, h1, h2, exOk, segWellFormed]
              · rcases s2 with - | ⟨z, s3⟩
                · simp [GeneticCode.decodeLoop, hc, h1, h2, ih, segWellFormed]
                · simp [GeneticCode.decodeLoop, hc, h1, h2, exOk,
                    segWellFormed]
          · simp [GeneticCode.decodeLoop, hc, h1, exOk, segWellFormed]
    · simp [GeneticCode.decodeLoop, hc, ih, segWellFormed]

/-- C4 (corrected): the claim as stated is false.  The segment `a:bc` has a
`:` but no `-`; the claim says it is silently skipped, but
`allele1, allele2 = alleles.split("-")` raises `ValueError`. -/
theorem cex_C4_decode_total :
    (∃ seg ∈ splitOn ';' ['a', ':', 'b', 'c'], ':' ∈ seg ∧ '-' ∉ seg)
    ∧ GeneticCode.decode ['a', ':', 'b', 'c'] = .error Err.valueUnpack
    ∧ ∀ m, GeneticCode.decode ['a', ':', 'b', 'c'] ≠ .ok m := by
  refine ⟨by decide, rfl, ?_⟩
  intro m h
  rw [show GeneticCode.decode ['a', ':', 'b', 'c']
        = .error Err.valueUnpack from rfl] at h
  exact Except.noConfusion h

/-- C4 (amended): a segment with no `:` is silently skipped, but decode
returns normally exactly when every segment that does contain a `:` splits
on `:` into two parts whose allele half splits on `-` into two parts;
otherwise it raises. -/
theorem thm_C4_decode_best_effort :
    (∀ code : Str,
      exOk (GeneticCode.decode code) = (splitOn ';' code).all segWellFormed)
    ∧ ∀ (seg : Str) (rest : List Str) (acc : List (Str × Str × Str)),
        ':' ∉ seg →
        GeneticCode.decodeLoop (seg :: rest) acc
          = GeneticCode.decodeLoop rest acc := by
  constructor
  · intro code
    exact decodeLoop_isOk (splitOn ';' code) []
  · intro seg rest acc hc
    simp [GeneticCode.decodeLoop, hc]

/-- Witness for C4: a concrete decode success equation and a concrete
skipped colon-free segment. -/
theorem wit_C4_decode_best_effort :
    exOk (GeneticCode.decode ['a', ':', 'b', '-', 'c'])
      = (splitOn ';' ['a', ':', 'b', '-', 'c']).all segWellFormed
    ∧ GeneticCode.decodeLoop [['b', 'a', 'd']] []
        = GeneticCode.decodeLoop [] [] :=
  ⟨thm_C4_decode_best_effort.1 ['a', ':', 'b', '-', 'c'],
   thm_C4_decode_best_effort.2 ['b', 'a', 'd'] [] [] (by decide)⟩

-- ===== C3: Punnett grid shape, canonical cells, argument symmetry =====

lemma sortedPair_perm (x y : Char) : (sortedPair x y).Perm [x, y] := by
  unfold sortedPair
  split
  · exact List.Perm.refl _
  · exact List.Perm.swap x y []

lemma sortedPair_sorted (x y : Char) :
    List.Sorted (fun u v => u ≤ v) (sortedPair x y) := by
  unfold sortedPair
  split
  · next h => simp [List.sorted_cons, h]
  · next h => simp [List.sorted_cons, le_of_not_le h]

lemma sortedPair_comm (x y : Char) : sortedPair x y = sortedPair y x := by
  by_cases hxy : x ≤ y <;> by_cases hyx : y ≤ x <;>
    simp only [sortedPair, if_pos, if_neg, hxy, hyx, if_true, if_false]
  · rw [le_antisymm hxy hyx]
  · exact absurd (le_total x y) (by simp [hxy, hyx])

lemma mem_keysInOrder (x : Str) (l : List Str) :
    x ∈ keysInOrder l ↔ x ∈ l := by
  unfold keysInOrder
  rw [mem_keysGo]
  simp

/-- C3 (confirmed): `PunnettSquare.calculate` always returns a 2×2 grid of
exactly 4 cells; each cell is the two contributing parent symbols sorted
alphabetically; and swapping the parents leaves the set of possible
offspring genotype strings unchanged. -/
theorem thm_C3_punnett (a b c d : Char) :
    (PunnettSquare.calculate (a, b) (c, d)).offspring_genotypes
        = [sortedPair a c, sortedPair a d, sortedPair b c, sortedPair b d]
    ∧ (PunnettSquare.calculate (a, b) (c, d)).offspring_genotypes.length = 4
    ∧ (PunnettSquare.calculate (a, b) (c, d)).punnett_square
        = [[sortedPair a c, sortedPair a d],
           [sortedPair b c, sortedPair b d]]
    ∧ (∀ x y : Char, (sortedPair x y).Perm [x, y]
        ∧ List.Sorted (fun u v => u ≤ v) (sortedPair x y))
    ∧ (∀ g : Str,
        g ∈ (PunnettSquare.calculate (a, b) (c, d)).possible_offspring ↔
        g ∈ (PunnettSquare.calculate (c, d) (a, b)).possible_offspring) := by
  refine ⟨rfl, rfl, rfl, fun x y => ⟨sortedPair_perm x y, sortedPair_sorted x y⟩, ?_⟩
  intro g
  show g ∈ keysInOrder _ ↔ g ∈ keysInOrder _
  rw [mem_keysInOrder, mem_keysInOrder]
  simp only [List.map, List.flatten, List.mem_cons, List.mem_append,
    List.not_mem_nil, List.append_nil, or_false]
  rw [sortedPair_comm c a, sortedPair_comm c b, sortedPair_comm d a,
    sortedPair_comm d b]
  tauto

-- ===== C6: homozygous phenotype resolution =====

/-- C6 (corrected): the claim as stated is false.  For the (non-coat)
hair-length gene, the Short allele paired with itself has equal symbols, yet
`get_phenotype` lands in the co-dominant branch: the phenotype is `H/H`,
not the allele name followed by `(pure)`. -/
theorem cex_C6_homozygous :
    alleleH.symbol = alleleH.symbol
    ∧ (PunnettSquare.get_phenotype alleleH alleleH
        (some hairLengthS)).phenotype = ['H', '/', 'H']
    ∧ (PunnettSquare.get_phenotype alleleH alleleH
        (some hairLengthS)).phenotype ≠ alleleH.name ++ pureSuffixS
    ∧ (PunnettSquare.get_phenotype alleleH alleleH
        (some hairLengthS)).phenotype
        ≠ alleleH.name ++ ['(', 'p', 'u', 'r', 'e', ')']
    ∧ (PunnettSquare.get_phenotype alleleH alleleH
        (some hairLengthS)).inheritance_type = coDominantS := by
  exact ⟨rfl, rfl, by decide, by decide, rfl⟩

lemma truncQ_avg_self (e : Int) : truncQ (((e : ℚ) + (e : ℚ)) / 2) = e := by
  have h : ((e : ℚ) + (e : ℚ)) / 2 = (e : ℚ) := by ring
  rw [h, truncQ_intCast]

/-- C6 (amended): only for the `coat_color` gene does a pair with equal
allele symbols resolve to the homozygous case, with phenotype
`<name> (pure)` and the allele's own effect value; for every other gene
name the same allele paired with itself falls into the co-dominant branch —
its effect value is still the allele's own, but the phenotype is
`<sym>/<sym>`. -/
theorem thm_C6_homozygous (a1 a2 : Allele) (g : Option Str) :
    (g = some coatColorS → a1.symbol = a2.symbol →
      PunnettSquare.get_phenotype a1 a2 g =
        { phenotype := a1.name ++ pureSuffixS,
          genotype := some [a1.symbol, a2.symbol],
          effect_value := a1.effect_value,
          inheritance_type := homozygousS,
          is_pure := some true })
    ∧ (g ≠ some coatColorS →
      PunnettSquare.get_phenotype a1 a1 g =
        { phenotype := [a1.symbol, '/', a1.symbol],
          genotype := none,
          effect_value := a1.effect_value,
          inheritance_type := coDominantS,
          is_pure := none }) := by
  constructor
  · intro hg hsym
    subst hg
    unfold PunnettSquare.get_phenotype
    rw [if_pos rfl, if_pos hsym]
  · intro hg
    unfold PunnettSquare.get_phenotype
    rw [if_neg hg, if_neg (lt_irrefl a1.dominance_level),
      if_neg (lt_irrefl a1.dominance_level)]
    rw [truncQ_avg_self]

/-- Witness for C6: the Brown coat allele paired with itself gives
`Brown (pure)` with effect 20; the speed-gene allele `alleleZ` paired with
itself gives the co-dominant `Z/Z` with its own effect 5. -/
theorem wit_C6_homozygous :
    PunnettSquare.get_phenotype alleleB alleleB (some coatColorS) =
      { phenotype := alleleB.name ++ pureSuffixS,
        genotype := some [alleleB.symbol, alleleB.symbol],
        effect_value := alleleB.effect_value,
        inheritance_type := homozygousS,
        is_pure := some true }
    ∧ PunnettSquare.get_phenotype alleleZ alleleZ (some speedS) =
      { phenotype := [alleleZ.symbol, '/', alleleZ.symbol],
        genotype := none,
        effect_value := alleleZ.effect_value,
        inheritance_type := coDominantS,
        is_pure := none } :=
  ⟨(thm_C6_homozygous alleleB alleleB (some coatColorS)).1 rfl rfl,
   (thm_C6_homozygous alleleZ alleleZ (some speedS)).2 (by decide)⟩

-- ===== C9: empty genetic code scores zero =====

/-- C9 (confirmed): whenever `pet.genetic_code` is unset (`None`) or the
empty string, `calculate_rarity_score` returns 0 immediately — no default
genotypes and no stat-quality bonus are applied, whatever the stats are. -/
theorem thm_C9_empty_code_zero (pet : Pet)
    (h : codeFalsy pet.genetic_code = true) :
    RarityCalculator.calculate_rarity_score pet = .ok 0 := by
  unfold RarityCalculator.calculate_rarity_score
  rw [if_pos h]

/-- Witness for C9: a pet with perfect stats (100/100) but no genetic code
still scores 0. -/
theorem wit_C9_empty_code_zero :
    RarityCalculator.calculate_rarity_score petZero = .ok 0 :=
  thm_C9_empty_code_zero petZero rfl

-- ===== C2: breeding precondition raises before any mutation =====

/-- C2 (confirmed): when either parent has no genetics rows,
`BreedingEngine.breed` returns the invalid-input `ValueError` — and since
the updated session is only produced on the success path, no offspring pet,
no genetics rows and no audit record are created. -/
theorem thm_C2_breed_empty_parent (db : Db) (p1 p2 : Pet)
    (child_name child_species child_color : Str) (owner_id : Nat)
    (rng : List Nat) (r_speed r_endurance : Int)
    (h : db.petGenetics.filter (fun pg => decide (pg.pet_id = p1.id)) = []
       ∨ db.petGenetics.filter (fun pg => decide (pg.pet_id = p2.id)) = []) :
    BreedingEngine.breed db p1 p2 child_name child_species child_color
        owner_id rng r_speed r_endurance = .error Err.invalidParents := by
  unfold BreedingEngine.breed
  rw [if_pos h]

/-- Witness for C2: breeding two pets in a session with no genetics rows at
all raises the invalid-input error. -/
theorem wit_C2_breed_empty_parent :
    BreedingEngine.breed dbEmptyGenetics petW petZero ['c'] ['g'] ['w'] 1
        [] 0 0 = .error Err.invalidParents :=
  thm_C2_breed_empty_parent dbEmptyGenetics petW petZero ['c'] ['g'] ['w'] 1
    [] 0 0 (Or.inl rfl)

-- ===== C5 / C10: market value and its frame =====

lemma get_coat_ok_inv (code : Str) (coat : CoatInfo)
    (h : RarityCalculator.get_coat_phenotype code = .ok coat) :
    ∃ genes a1 a2 t,
      RarityCalculator.parse_genetic_code code = .ok genes
      ∧ dictGet genes coatColorS wwS = a1 :: a2 :: t
      ∧ coat.is_pure = decide (a1 = a2) := by
  unfold RarityCalculator.get_coat_phenotype at h
  rcases hp : RarityCalculator.parse_genetic_code code with e | genes
  · rw [hp] at h; simp at h
  · rw [hp] at h
    simp only at h
    rcases hcg : dictGet genes coatColorS wwS with - | ⟨a1, t⟩
    · rw [hcg] at h; simp at h
    · rcases t with - | ⟨a2, t2⟩
      · rw [hcg] at h; simp at h
      · simp only [hcg] at h
        by_cases hab : a1 = a2
        · rw [if_pos hab] at h
          injection h with h'
          exact ⟨genes, a1, a2, t2, rfl, hcg, by rw [← h']; simp [hab]⟩
        · rw [if_neg hab] at h
          injection h with h'
          exact ⟨genes, a1, a2, t2, rfl, hcg, by rw [← h']; simp [hab]⟩

lemma get_hair_ok_inv (code : Str) (hair : HairInfo)
    (h : RarityCalculator.get_hair_type code = .ok hair) :
    ∃ genes,
      RarityCalculator.parse_genetic_code code = .ok genes
      ∧ hair.is_fluffy
          = decide ('h' ∈ dictGet genes hairLengthS hairDefaultS) := by
  unfold RarityCalculator.get_hair_type at h
  rcases hp : RarityCalculator.parse_genetic_code code with e | genes
  · rw [hp] at h; simp at h
  · rw [hp] at h
    simp only at h
    injection h with h'
    exact ⟨genes, rfl, by rw [← h']; exact fluffy_decide _⟩

lemma cmvPrice_ok (pet1 p' : Pet) (v : Int)
    (h : RarityCalculator.cmvPrice pet1 = .ok (p', v)) :
    p' = pet1 ∧ 50 ≤ v
    ∧ C5valueAmended (tierOrCommon pet1.rarity_tier) pet1.speed
        pet1.endurance (codeOrEmpty pet1.genetic_code) = .ok v := by
  unfold RarityCalculator.cmvPrice at h
  rcases hco : RarityCalculator.get_coat_phenotype
      (codeOrEmpty pet1.genetic_code) with e | coat
  · rw [hco] at h; simp at h
  · rw [hco] at h
    rcases hha : RarityCalculator.get_hair_type
        (codeOrEmpty pet1.genetic_code) with e | hair
    · rw [hha] at h; simp at h
    · rw [hha] at h
      simp only [Except.ok.injEq, Prod.mk.injEq] at h
      obtain ⟨hp1, hv⟩ := h
      obtain ⟨genes, a1, a2, t, hp, hcg, hpure⟩ := get_coat_ok_inv _ _ hco
      obtain ⟨genes2, hp2, hfl⟩ := get_hair_ok_inv _ _ hha
      rw [hp] at hp2
      injection hp2 with hg2
      subst hg2
      refine ⟨hp1.symm, ?_, ?_⟩
      · rw [← hv]; exact le_max_right _ _
      · unfold C5valueAmended
        simp only [hp, hcg]
        rw [← hv, hpure, hfl]
        by_cases hh : 'h' ∈ dictGet genes hairLengthS hairDefaultS <;>
          simp [hh]

/-- C5 (amended): whenever `calculate_market_value` returns normally, the
returned price is exactly `int(base[tier] * stat_multiplier *
color_multiplier * hair_multiplier)` — truncation, not rounding — floored
at 50 (`C5valueAmended`, with the tier in effect after the conditional
rarity recomputation), and in particular it is always at least 50. -/
theorem thm_C5_market_value (pet p' : Pet) (v : Int)
    (h : RarityCalculator.calculate_market_value pet = .ok (p', v)) :
    C5valueAmended (tierOrCommon p'.rarity_tier) pet.speed pet.endurance
        (codeOrEmpty pet.genetic_code) = .ok v
    ∧ 50 ≤ v := by
  unfold RarityCalculator.calculate_market_value at h
  by_cases hz : pet.rarity_score = 0
  · rw [if_pos hz] at h
    rcases hr : RarityCalculator.calculate_rarity_score pet with e | r
    · rw [hr] at h; simp [Except.map] at h
    · rw [hr] at h
      simp only [Except.map] at h
      obtain ⟨hp', h50, hAm⟩ := cmvPrice_ok _ p' v h
      subst hp'
      exact ⟨hAm, h50⟩
  · rw [if_neg hz] at h
    obtain ⟨hp', h50, hAm⟩ := cmvPrice_ok pet p' v h
    subst hp'
    exact ⟨hAm, h50⟩

/-- The pricing call on `petW` (tier Rare, stats 50/50, no genetic code):
`2000 * 1.25 * 1.5 * 1.0 = 3750`. -/
lemma cmv_petW_eval :
    RarityCalculator.calculate_market_value petW = .ok (petW, 3750) := by
  show RarityCalculator.cmvPrice petW = .ok (petW, 3750)
  have hco : RarityCalculator.get_coat_phenotype
      (codeOrEmpty petW.genetic_code)
      = .ok { phenotype := whiteS ++ pureSuffixS, genotype := wwS,
              is_pure := true, rarity_bonus := 5 } := rfl
  have hha : RarityCalculator.get_hair_type (codeOrEmpty petW.genetic_code)
      = .ok { type := shortS, genotype := hairDefaultS,
              is_fluffy := false, rarity_bonus := 0 } := rfl
  unfold RarityCalculator.cmvPrice
  simp only [hco, hha]
  have hb : basePrices (tierOrCommon petW.rarity_tier) = 2000 := rfl
  have hs : petW.speed = 50 := rfl
  have he : petW.endurance = 50 := rfl
  rw [hb, hs, he]
  simp only [Except.ok.injEq, Prod.mk.injEq, true_and]
  norm_num [truncQ]

/-- Witness for C5: the amended formula reproduces the concrete price 3750
for `petW`. -/
theorem wit_C5_market_value :
    C5valueAmended (tierOrCommon petW.rarity_tier) petW.speed petW.endurance
        (codeOrEmpty petW.genetic_code) = .ok 3750 ∧ 50 ≤ (3750 : Int) :=
  thm_C5_market_value petW petW 3750 cmv_petW_eval

/-- C10 (confirmed): `calculate_market_value` leaves the pet untouched when
`rarity_score` is nonzero, and when it is zero the only fields it writes
before pricing are `rarity_score` and `rarity_tier`. -/
theorem thm_C10_frame (pet p' : Pet) (v : Int)
    (h : RarityCalculator.calculate_market_value pet = .ok (p', v)) :
    (pet.rarity_score ≠ 0 → p' = pet)
    ∧ (pet.rarity_score = 0 →
        ∃ r, RarityCalculator.calculate_rarity_score pet = .ok r ∧
          p' = { pet with rarity_score := r,
                          rarity_tier :=
                            some (RarityCalculator.get_rarity_tier r) }) := by
  unfold RarityCalculator.calculate_market_value at h
  by_cases hz : pet.rarity_score = 0
  · rw [if_pos hz] at h
    rcases hr : RarityCalculator.calculate_rarity_score pet with e | r
    · rw [hr] at h; simp [Except.map] at h
    · rw [hr] at h
      simp only [Except.map] at h
      obtain ⟨hp', -, -⟩ := cmvPrice_ok _ p' v h
      exact ⟨fun hnz => absurd hz hnz, fun _ => ⟨r, rfl, hp'⟩⟩
  · rw [if_neg hz] at h
    obtain ⟨hp', -, -⟩ := cmvPrice_ok pet p' v h
    exact ⟨fun _ => hp', fun h0 => absurd h0 hz⟩

/-- Witness for C10: on `petW` (nonzero rarity score) the call returns the
pet unchanged. -/
theorem wit_C10_frame : petW = petW :=
  (thm_C10_frame petW petW 3750 cmv_petW_eval).1 (by decide)

/-- C5 (corrected): the claim as stated is false.  On `petC5` (tier Common,
stats 4/0, coat pure by default) the exact product is 79.5: the claim's
`round` gives 80, but the code's `int()` truncation gives 79. -/
theorem cex_C5_rounding :
    RarityCalculator.calculate_market_value petC5 = .ok (petC5, 79)
    ∧ C5valueClaimed (tierOrCommon petC5.rarity_tier) petC5.speed
        petC5.endurance (codeOrEmpty petC5.genetic_code) = .ok 80
    ∧ (79 : Int) ≠ 80 := by
  refine ⟨?_, ?_, by decide⟩
  · show RarityCalculator.cmvPrice petC5 = .ok (petC5, 79)
    have hco : RarityCalculator.get_coat_phenotype
        (codeOrEmpty petC5.genetic_code)
        = .ok { phenotype := whiteS ++ pureSuffixS, genotype := wwS,
                is_pure := true, rarity_bonus := 5 } := rfl
    have hha : RarityCalculator.get_hair_type
        (codeOrEmpty petC5.genetic_code)
        = .ok { type := shortS, genotype := hairDefaultS,
                is_fluffy := false, rarity_bonus := 0 } := rfl
    unfold RarityCalculator.cmvPrice
    simp only [hco, hha]
    have hb : basePrices (tierOrCommon petC5.rarity_tier) = 100 := rfl
    have hs : petC5.speed = 4 := rfl
    have he : petC5.endurance = 0 := rfl
    rw [hb, hs, he]
    simp only [Except.ok.injEq, Prod.mk.injEq, true_and]
    norm_num [truncQ]
  · have hp : RarityCalculator.parse_genetic_code
        (codeOrEmpty petC5.genetic_code) = .ok [] := rfl
    unfold C5valueClaimed
    simp only [hp]
    simp only [show dictGet ([] : List (Str × Str)) coatColorS wwS
        = 'W' :: 'W' :: ([] : Str) from rfl]
    simp only [show dictGet ([] : List (Str × Str)) hairLengthS hairDefaultS
        = hairDefaultS from rfl]
    rw [if_pos (by decide : decide True = true),
      if_neg (by decide : ¬('h' ∈ hairDefaultS))]
    have hb : basePrices (tierOrCommon petC5.rarity_tier) = 100 := rfl
    have hs : petC5.speed = 4 := rfl
    have he : petC5.endurance = 0 := rfl
    rw [hb, hs, he]
    simp only [Except.ok.injEq]
    norm_num [round_eq]

-- ===== C7: stat derivation from genetics =====

lemma statModLoop_sum (rows : List PetGenetics) :
    ∀ s e : Int,
      BreedingEngine.statModLoop rows s e
        = (s + C7speedModifier rows, e + C7enduranceModifier rows) := by
  induction rows with
  | nil =>
    intro s e
    simp [BreedingEngine.statModLoop, C7speedModifier, C7enduranceModifier]
  | cons pg rest ih =>
    intro s e
    simp only [BreedingEngine.statModLoop, ih, C7speedModifier,
      C7enduranceModifier, List.filter_cons, effectOf]
    by_cases hsp : routedToSpeed (lowerStr pg.gene.name) <;>
      by_cases hen : routedToEndurance (lowerStr pg.gene.name) <;>
        simp [hsp, hen, effectOf, Prod.mk.injEq] <;>
        first
          | (constructor <;> ring)
          | ring

/-- C7 (amended): for a pet with at least one genetics row and any draws
`r ∈ [-5, 5]`, `update_stats_from_genetics` sets each stat to
`clamp(0, 100, int(50 + modifier*0.7 + r))` — `int()` truncation, not
rounding — where `modifier` sums the phenotype effect values of the rows
routed to that stat by the keyword lists (a pet with no rows is returned
unchanged by the early return). -/
theorem thm_C7_stats_formula (db : Db) (pet : Pet)
    (r_speed r_endurance : Int)
    (hne : db.petGenetics.filter (fun pg => decide (pg.pet_id = pet.id)) ≠ [])
    (hs1 : -5 ≤ r_speed) (hs2 : r_speed ≤ 5)
    (he1 : -5 ≤ r_endurance) (he2 : r_endurance ≤ 5) :
    BreedingEngine.update_stats_from_genetics db pet r_speed r_endurance
      = { pet with
          speed := C7statAmended
            (C7speedModifier
              (db.petGenetics.filter (fun pg => decide (pg.pet_id = pet.id))))
            r_speed,
          endurance := C7statAmended
            (C7enduranceModifier
              (db.petGenetics.filter (fun pg => decide (pg.pet_id = pet.id))))
            r_endurance } := by
  unfold BreedingEngine.update_stats_from_genetics
  rw [if_neg hne, statModLoop_sum]
  simp only [zero_add]
  rfl

lemma phenotype_alleleZ :
    PunnettSquare.get_phenotype alleleZ alleleZ (some speedS)
      = { phenotype := ['Z', '/', 'Z'], genotype := none, effect_value := 5,
          inheritance_type := coDominantS, is_pure := none } := by
  unfold PunnettSquare.get_phenotype
  rw [if_neg (by decide), if_neg (lt_irrefl _), if_neg (lt_irrefl _)]
  norm_num [truncQ, PhenotypeInfo.mk.injEq]
  exact ⟨rfl, rfl⟩

lemma statModLoop_rowZ : BreedingEngine.statModLoop [rowZ] 0 0 = (5, 0) := by
  have h1 : routedToSpeed (lowerStr rowZ.gene.name) = true := rfl
  have h2 : routedToEndurance (lowerStr rowZ.gene.name) = false := rfl
  simp only [BreedingEngine.statModLoop, h1, h2]
  rw [show rowZ.allele1 = alleleZ from rfl, show rowZ.allele2 = alleleZ from rfl,
    show rowZ.gene.name = speedS from rfl, phenotype_alleleZ]
  norm_num

/-- C7 (corrected): the claim as stated is false.  With the single speed-gene
row `rowZ` (modifier 5) and draw 0, the exact value is 53.5: the claim's
`round` formula gives 54, but the code's `int()` truncation gives 53. -/
theorem cex_C7_rounding :
    dbC7.petGenetics.filter (fun pg => decide (pg.pet_id = petC7.id)) = [rowZ]
    ∧ C7speedModifier [rowZ] = 5
    ∧ (BreedingEngine.update_stats_from_genetics dbC7 petC7 0 0).speed = 53
    ∧ C7statClaimed 5 0 = 54
    ∧ (53 : Int) ≠ 54 := by
  refine ⟨rfl, ?_, ?_, ?_, by decide⟩
  · have hf : List.filter (fun pg => routedToSpeed (lowerStr pg.gene.name))
        [rowZ] = [rowZ] := rfl
    rw [C7speedModifier, hf]
    simp only [List.map, List.sum_cons, List.sum_nil, effectOf]
    rw [show rowZ.allele1 = alleleZ from rfl,
      show rowZ.allele2 = alleleZ from rfl,
      show rowZ.gene.name = speedS from rfl, phenotype_alleleZ]
    norm_num
  · unfold BreedingEngine.update_stats_from_genetics
    rw [if_neg (by decide)]
    rw [show dbC7.petGenetics.filter
          (fun pg => decide (pg.pet_id = petC7.id)) = [rowZ] from rfl,
      statModLoop_rowZ]
    norm_num [truncQ]
  · norm_num [C7statClaimed, round_eq]

/-- Witness for C7: applying the amended formula to the concrete session
`dbC7`. -/
theorem wit_C7_stats_formula :
    BreedingEngine.update_stats_from_genetics dbC7 petC7 0 0
      = { petC7 with
          speed := C7statAmended
            (C7speedModifier (dbC7.petGenetics.filter
              (fun pg => decide (pg.pet_id = petC7.id)))) 0,
          endurance := C7statAmended
            (C7enduranceModifier (dbC7.petGenetics.filter
              (fun pg => decide (pg.pet_id = petC7.id)))) 0 } :=
  thm_C7_stats_formula dbC7 petC7 0 0 (by decide) (by decide) (by decide)
    (by decide) (by decide)

-- ===== C8: per-position gene pairing in breed =====

lemma upsert_entry_inv {acc : List (Nat × Gene × Allele × Allele)}
    (hacc : ∀ e ∈ acc, entrySameGene e) {k : Nat}
    {v : Gene × Allele × Allele} (hv : entrySameGene (k, v)) :
    ∀ e ∈ upsert k v acc, entrySameGene e := by
  intro e he
  unfold upsert at he
  split at he
  · rcases List.mem_map.mp he with ⟨e0, he0, rfl⟩
    by_cases h : e0.1 = k
    · simpa [h] using hv
    · simpa [h] using hacc e0 he0
  · rcases List.mem_append.mp he with h | h
    · exact hacc e h
    · rcases List.mem_singleton.mp h with rfl
      exact hv

lemma acc_step_inv (db : Db) (gene : Gene) (s0 s1 : Char)
    (acc : List (Nat × Gene × Allele × Allele))
    (hacc : ∀ e ∈ acc, entrySameGene e) :
    ∀ e ∈ (match
            db.alleles.find? (fun a =>
              decide (a.gene_id = gene.id) && decide (a.symbol = s0)),
            db.alleles.find? (fun a =>
              decide (a.gene_id = gene.id) && decide (a.symbol = s1)) with
          | some a1, some a2 => upsert gene.id (gene, a1, a2) acc
          | _, _ => acc), entrySameGene e := by
  cases ha1 : db.alleles.find? (fun a =>
      decide (a.gene_id = gene.id) && decide (a.symbol = s0)) with
  | none => simpa only [ha1] using hacc
  | some a1 =>
    cases ha2 : db.alleles.find? (fun a =>
        decide (a.gene_id = gene.id) && decide (a.symbol = s1)) with
    | none => simpa only [ha1, ha2] using hacc
    | some a2 =>
      simp only [ha1, ha2]
      have p1 := List.find?_some ha1
      have p2 := List.find?_some ha2
      simp only [Bool.and_eq_true, decide_eq_true_eq] at p1 p2
      exact upsert_entry_inv hacc ⟨p1.1, p2.1⟩

lemma breedLoop_inv (db : Db) (p1name p2name : Str) :
    ∀ (pairs : List (PetGenetics × PetGenetics)) (rng : List Nat)
      (acc : List (Nat × Gene × Allele × Allele)) (ps : List PunnettRec)
      (notes : List Str),
      (∀ e ∈ acc, entrySameGene e) →
      ∀ e ∈ (BreedingEngine.breedLoop db p1name p2name pairs rng
              acc ps notes).1,
        entrySameGene e := by
  intro pairs
  induction pairs with
  | nil => intro rng acc ps notes hacc e he; exact hacc e he
  | cons pq rest ih =>
    obtain ⟨p1g, p2g⟩ := pq
    intro rng acc ps notes hacc
    by_cases hid : p1g.gene_id = p2g.gene_id
    · have hcond : ¬(p1g.gene_id ≠ p2g.gene_id) := not_not_intro hid
      simp only [BreedingEngine.breedLoop, if_neg hcond]
      exact ih _ _ _ _ (acc_step_inv db p1g.gene _ _ acc hacc)
    · simp only [BreedingEngine.breedLoop, if_pos hid]
      exact ih _ _ _ _ hacc

lemma breedLoop_filter_mismatch (db : Db) (p1name p2name : Str) :
    ∀ (pairs : List (PetGenetics × PetGenetics)) (rng : List Nat)
      (acc : List (Nat × Gene × Allele × Allele)) (ps : List PunnettRec)
      (notes : List Str),
      BreedingEngine.breedLoop db p1name p2name pairs rng acc ps notes
        = BreedingEngine.breedLoop db p1name p2name
            (pairs.filter (fun pq => decide (pq.1.gene_id = pq.2.gene_id)))
            rng acc ps notes := by
  intro pairs
  induction pairs with
  | nil => intro rng acc ps notes; rfl
  | cons pq rest ih =>
    obtain ⟨p1g, p2g⟩ := pq
    intro rng acc ps notes
    by_cases hid : p1g.gene_id = p2g.gene_id
    · have hcond : ¬(p1g.gene_id ≠ p2g.gene_id) := not_not_intro hid
      rw [List.filter_cons, if_pos (by simpa using hid)]
      simp only [BreedingEngine.breedLoop, if_neg hcond]
      exact ih _ _ _ _
    · rw [List.filter_cons, if_neg (by simpa using hid)]
      simp only [BreedingEngine.breedLoop, if_pos hid]
      exact ih _ _ _ _

/-- C8 (confirmed): in the breeding loop, a position whose two parent rows
reference different gene ids contributes nothing at all (the run equals the
run on the id-matched positions only — no alleles, no Punnett record, no
inheritance note), and every `offspring_alleles` entry pairs two alleles
whose `gene_id` is exactly the gene id under which the entry is stored:
cross-gene pairing never occurs. -/
theorem thm_C8_same_gene (db : Db) (p1name p2name : Str)
    (pairs : List (PetGenetics × PetGenetics)) (rng : List Nat)
    (acc : List (Nat × Gene × Allele × Allele)) (ps : List PunnettRec)
    (notes : List Str)
    (hacc : ∀ e ∈ acc, entrySameGene e) :
    (∀ e ∈ (BreedingEngine.breedLoop db p1name p2name pairs rng
              acc ps notes).1,
        entrySameGene e)
    ∧ BreedingEngine.breedLoop db p1name p2name pairs rng acc ps notes
        = BreedingEngine.breedLoop db p1name p2name
            (pairs.filter (fun pq => decide (pq.1.gene_id = pq.2.gene_id)))
            rng acc ps notes :=
  ⟨breedLoop_inv db p1name p2name pairs rng acc ps notes hacc,
   breedLoop_filter_mismatch db p1name p2name pairs rng acc ps notes⟩

/-- Witness for C8: a concrete run over one mismatched position (coat row
zipped against hair row), starting from the empty accumulator. -/
theorem wit_C8_same_gene :
    (∀ e ∈ (BreedingEngine.breedLoop dbC7 ['P'] ['Q'] [(rowCoat, rowHair)]
             [] [] [] []).1, entrySameGene e)
    ∧ BreedingEngine.breedLoop dbC7 ['P'] ['Q'] [(rowCoat, rowHair)] [] [] [] []
        = BreedingEngine.breedLoop dbC7 ['P'] ['Q']
            ([(rowCoat, rowHair)].filter
              (fun pq => decide (pq.1.gene_id = pq.2.gene_id)))
            [] [] [] [] :=
  thm_C8_same_gene dbC7 ['P'] ['Q'] [(rowCoat, rowHair)] [] [] [] []
    (by intro e he; exact absurd he (List.not_mem_nil e))
